import Mathlib

/-!
Shallow embedding of the mock travel-search service
(`src/mock_flight-hotel_api/main.py`) and verification of the claims about
its data-normalization and query-matching core.

Modelling conventions:
* a raw tabular source is a list of rows; each cell is an `Option String`,
  where `none` models an empty/missing CSV cell (pandas `NaN`);
* decimal values are rationals; a `none` in a numeric record field models
  the float `NaN` that pandas propagates for a missing numeric cell;
* `pd.to_numeric` raising on an unparseable string, caught by the
  enclosing `try/except` that returns `[]`, is modelled by the loader
  returning `[]` when any checked cell fails to parse;
* `read_csv` dtype inference is modelled per column: a column in which
  every cell is blank or a plain numeral is stored with numeric (or
  all-`NaN` float) dtype, on which the `.str` accessor — and, for the
  hotel loader, the per-value `.strip()` calls — raise, so the enclosing
  handler returns `[]`; a column containing at least one non-numeral
  string keeps object dtype and every present cell stays the raw string.
-/

namespace Travel

/-- Models Python `str.strip()` (ASCII whitespace): drops leading and
trailing whitespace characters. -/
def pyStrip (s : String) : String :=
  String.mk (((s.data.dropWhile Char.isWhitespace).reverse.dropWhile Char.isWhitespace).reverse)

/-- Models Python `str.lower()` on the ASCII strings this service handles. -/
def pyLower (s : String) : String :=
  String.mk (s.data.map Char.toLower)

/-- Models Python `str.upper()` on the ASCII strings this service handles. -/
def pyUpper (s : String) : String :=
  String.mk (s.data.map Char.toUpper)

/-- Models Python slicing `s[:n]`: the first `n` characters. -/
def pyTake (s : String) (n : Nat) : String :=
  String.mk (s.data.take n)

/-- Removes every occurrence of the characters of `cs` from `s`; models a
chain of Python `str.replace(c, '')` calls. -/
def removeChars (cs : List Char) (s : String) : String :=
  String.mk (s.data.filter (fun c => !(cs.contains c)))

/-- Models Python `s.replace('-', '')`. -/
def removeDashes (s : String) : String :=
  removeChars ['-'] s

/-- Models `.str.replace(',', '').str.replace('"', '')` on a cell. -/
def cleanNumStr (s : String) : String :=
  removeChars [',', '\"'] s

/-- Numeric value of a decimal digit character. -/
def digitVal (c : Char) : Nat := c.toNat - 48

/-- Value of a big-endian string of decimal digits. -/
def digitsVal (l : List Char) : Nat :=
  l.foldl (fun a c => 10 * a + digitVal c) 0

/-- Parses an unsigned decimal numeral (digits, optionally a dot and more
digits); models the grammar accepted by `pd.to_numeric` on the cleaned
strings this service feeds it. -/
def parseUnsigned (l : List Char) : Option ℚ :=
  let intPart := l.takeWhile Char.isDigit
  let rest := l.dropWhile Char.isDigit
  match rest with
  | [] => if intPart.isEmpty then none else some ((digitsVal intPart : ℚ))
  | '.' :: frac =>
      if frac.all Char.isDigit && !(intPart.isEmpty && frac.isEmpty) then
        some ((digitsVal intPart : ℚ) + (digitsVal frac : ℚ) / (10 : ℚ) ^ frac.length)
      else none
  | _ => none

/-- Parses a possibly-signed decimal numeral. -/
def parseDec (s : String) : Option ℚ :=
  match s.data with
  | '-' :: rest => (parseUnsigned rest).map (fun q => -q)
  | l => parseUnsigned l

/-- Whether `read_csv` stores this cell as a number (or `NaN`): blank
cells and plain numerals do. A column all of whose cells satisfy this is
inferred numeric (or all-`NaN` float) rather than object dtype. -/
def cellNumeric : Option String → Bool
  | none => true
  | some s => (parseDec s).isSome

/-- The column never contains a plain-numeral cell, so `read_csv` keeps
every present cell a string (or leaves the column entirely `NaN`):
Python `str()` then returns each present cell unchanged and "nan" for a
missing one. Used to scope flight-loader statements to the tables this
embedding renders exactly. -/
def colKeepsStrings (cells : List (Option String)) : Bool :=
  cells.all (fun c => match c with | none => true | some s => !(parseDec s).isSome)

/-- One raw row of the hotels table: columns `Destination`, `Hotel Name`,
`Rate Per Night (INR)`; `none` models an empty cell. -/
structure HotelRow where
  dest : Option String
  hotelName : Option String
  rate : Option String
deriving DecidableEq

/-- A normalized hotel record as built by `load_hotels_data`. -/
structure HotelRecord where
  destination : String
  hotelName : String
  ratePerNight : Option ℚ
deriving DecidableEq

/-- Models `df['Destination'].fillna(method='ffill')`: each missing
destination cell is replaced by the carried last non-missing one. -/
def ffillAux : Option String → List HotelRow → List HotelRow
  | _, [] => []
  | carry, r :: rs =>
    match r.dest with
    | some d => r :: ffillAux (some d) rs
    | none => { r with dest := carry } :: ffillAux carry rs

/-- Forward fill of the `Destination` column, starting with no carry. -/
def ffillDest (rows : List HotelRow) : List HotelRow :=
  ffillAux none rows

/-- The carry value after the forward fill scans `rows` starting from
`c`: the destination of the nearest row with one, scanning backwards. -/
def lastDest : Option String → List HotelRow → Option String
  | c, [] => c
  | c, r :: rs => lastDest (match r.dest with | some d => some d | none => c) rs

/-- Row-retention test: models `dropna(subset=['Hotel Name'])` followed by
keeping rows whose stripped `Hotel Name` is non-empty. -/
def nameKept (r : HotelRow) : Bool :=
  match r.hotelName with
  | none => false
  | some s => pyStrip s != ""

/-- Whether `pd.to_numeric` succeeds on this row's cleaned rate cell: a
missing cell passes through as `NaN`, a string cell must parse. -/
def rateOk (r : HotelRow) : Bool :=
  match r.rate with
  | none => true
  | some s => (parseDec (cleanNumStr s)).isSome

/-- The parsed rate of a row (`none` models `NaN`). -/
def parsedRate (r : HotelRow) : Option ℚ :=
  r.rate.bind (fun s => parseDec (cleanNumStr s))

/-- Builds one `HotelRecord` from a retained row; the guard mirrors the
`pd.notna(row['Destination']) and pd.notna(row['Hotel Name'])` check. -/
def buildHotel (r : HotelRow) : Option HotelRecord :=
  match r.dest, r.hotelName with
  | some d, some n =>
      some { destination := pyLower (pyStrip d)
             hotelName := pyStrip n
             ratePerNight := parsedRate r }
  | _, _ => none

/-- Embedding of `load_hotels_data`. When `read_csv` infers a numeric or
all-`NaN` dtype for the Destination, Hotel Name, or Rate column (every
cell blank or a plain numeral, dropped rows included), the `.str`
accessor on the name or rate column, or `.strip()` on a float
destination, raises and the handler returns `[]` (a numeric destination
column with no retained destination yields `[]` through the loop as
well). Otherwise: forward-fill destinations, drop rows without a hotel
name, then convert the rate column — if any retained rate cell fails to
parse the exception handler returns the empty list. -/
def load_hotels_data (table : List HotelRow) : List HotelRecord :=
  if (table.map (fun r => r.dest)).all cellNumeric
      || (table.map (fun r => r.hotelName)).all cellNumeric
      || (table.map (fun r => r.rate)).all cellNumeric then []
  else
    let filled := ffillDest table
    let kept := filled.filter nameKept
    if kept.all rateOk then kept.filterMap buildHotel else []

/-- One raw row of the flights table. -/
structure FlightRow where
  flightName : Option String
  fare : Option String
  departureCity : Option String
  arrivalCity : Option String
  departureTime : Option String
  flightNumber : Option String
deriving DecidableEq

/-- A normalized flight record as built by `load_flights_data`. -/
structure FlightRecord where
  flightName : String
  fare : Option ℚ
  departureCity : String
  arrivalCity : String
  departureTime : String
  flightNumber : String
deriving DecidableEq

/-- Models Python `str(...)` applied to a cell: a missing cell is the
float `NaN`, and `str(nan)` is the string "nan". -/
def strCell : Option String → String
  | some s => s
  | none => "nan"

/-- Whether `pd.to_numeric` succeeds on this row's cleaned fare cell. -/
def fareOk (r : FlightRow) : Bool :=
  match r.fare with
  | none => true
  | some s => (parseDec (cleanNumStr s)).isSome

/-- The parsed fare of a row (`none` models `NaN`). -/
def parsedFare (r : FlightRow) : Option ℚ :=
  r.fare.bind (fun s => parseDec (cleanNumStr s))

/-- Builds the `FlightRecord` of one row; every row yields a record. -/
def buildFlight (r : FlightRow) : FlightRecord :=
  { flightName := pyStrip (strCell r.flightName)
    fare := parsedFare r
    departureCity := pyLower (pyStrip (strCell r.departureCity))
    arrivalCity := pyLower (pyStrip (strCell r.arrivalCity))
    departureTime := pyStrip (strCell r.departureTime)
    flightNumber := pyStrip (strCell r.flightNumber) }

/-- Embedding of `load_flights_data`. When every fare cell is blank or a
plain numeral, `read_csv` infers a numeric or all-`NaN` dtype for the
fare column, the `.str` accessor raises, and the handler returns `[]`.
Otherwise the fare column is cleaned and converted (an unparseable fare
cell aborts the load via the exception handler), then every row is
emitted as one record. -/
def load_flights_data (table : List FlightRow) : List FlightRecord :=
  if (table.map (fun r => r.fare)).all cellNumeric then []
  else if table.all fareOk then table.map buildFlight else []

/-- Request body of `POST /searchflight`. -/
structure FlightSearchRequest where
  departureDate : String
  returnDate : String
  travelers : Int
  destination : String
  origin : String
deriving DecidableEq

/-- Request body of `POST /searchhotel`. -/
structure HotelSearchRequest where
  checkIn : String
  checkOut : String
  destination : String
deriving DecidableEq

/-- One flight search result (`FlightSearch` model). -/
structure FlightSearch where
  searchId : String
  departureDate : String
  returnDate : String
  travelers : Int
  destination : String
  origin : String
  flightName : String
  price : Option ℚ
  departureTime : String
  arrivalTime : Option String
  flightNumber : String
  route : String
deriving DecidableEq

/-- One hotel search result (`HotelSearch` model). -/
structure HotelSearch where
  searchId : String
  checkIn : String
  checkOut : String
  destination : String
  hotelName : String
  ratePerNight : Option ℚ
deriving DecidableEq

/-- Response of `POST /searchflight`. -/
structure FlightSearchResponse where
  status : String
  results : List FlightSearch
deriving DecidableEq

/-- Response of `POST /searchhotel`. -/
structure HotelSearchResponse where
  status : String
  results : List HotelSearch
deriving DecidableEq

/-- Pass A filter: `departureCity == origin and arrivalCity == destination`
on the lowercased request fields. -/
def matchOutbound (req : FlightSearchRequest) (f : FlightRecord) : Bool :=
  f.departureCity == pyLower req.origin && f.arrivalCity == pyLower req.destination

/-- Pass B filter: `departureCity == destination and arrivalCity == origin`
on the lowercased request fields. -/
def matchReturn (req : FlightSearchRequest) (f : FlightRecord) : Bool :=
  f.departureCity == pyLower req.destination && f.arrivalCity == pyLower req.origin

/-- Total price: `flight['fare'] * search_request.travelers`. -/
def priceFor (req : FlightSearchRequest) (f : FlightRecord) : Option ℚ :=
  f.fare.map (fun q => q * (req.travelers : ℚ))

/-- Result synthesized for a Pass A (origin-to-destination) match. -/
def outboundResult (req : FlightSearchRequest) (f : FlightRecord) : FlightSearch :=
  { searchId := "FL" ++ f.flightNumber ++ removeDashes req.departureDate
    departureDate := req.departureDate
    returnDate := req.returnDate
    travelers := req.travelers
    destination := req.destination
    origin := req.origin
    flightName := f.flightName
    price := priceFor req f
    departureTime := f.departureTime
    arrivalTime := none
    flightNumber := f.flightNumber
    route := req.origin ++ " to " ++ req.destination }

/-- Result synthesized for a Pass B (destination-to-origin) match: the
echoed origin and destination are swapped relative to the request. -/
def returnResult (req : FlightSearchRequest) (f : FlightRecord) : FlightSearch :=
  { searchId := "FL" ++ f.flightNumber ++ removeDashes req.returnDate
    departureDate := req.departureDate
    returnDate := req.returnDate
    travelers := req.travelers
    destination := req.origin
    origin := req.destination
    flightName := f.flightName
    price := priceFor req f
    departureTime := f.departureTime
    arrivalTime := none
    flightNumber := f.flightNumber
    route := req.destination ++ " to " ++ req.origin }

/-- Embedding of the `search_flight` endpoint: two filtered passes over the
loaded flights, results appended in a loop, then the status is chosen by
emptiness of the accumulated list. -/
def search_flight (flights : List FlightRecord) (req : FlightSearchRequest) :
    FlightSearchResponse :=
  let o2d := flights.filter (matchOutbound req)
  let d2o := flights.filter (matchReturn req)
  let afterOutbound := o2d.foldl (fun acc f => acc ++ [outboundResult req f]) []
  let allResults := d2o.foldl (fun acc f => acc ++ [returnResult req f]) afterOutbound
  if allResults.isEmpty then { status := "no_flights_found", results := [] }
  else { status := "success", results := allResults }

/-- Fuel-driven big-endian decimal digit string of a natural number; the
fuel only bounds the recursion depth and is irrelevant once it exceeds the
argument. -/
def toDecAux : Nat → Nat → List Char
  | 0, _ => []
  | fuel + 1, n =>
    if n < 10 then [Nat.digitChar n]
    else toDecAux fuel (n / 10) ++ [Nat.digitChar (n % 10)]

/-- Big-endian decimal digit string of a natural number, mirroring the
digits `%d` prints. -/
def toDecChars (n : Nat) : List Char :=
  toDecAux (n + 1) n

/-- Zero-padding to width two: models Python `f"{n:02d}"`. -/
def pad2Chars (n : Nat) : List Char :=
  List.replicate (2 - (toDecChars n).length) '0' ++ toDecChars n

/-- String form of the width-two zero-padded decimal. -/
def pad2 (n : Nat) : String :=
  String.mk (pad2Chars n)

/-- Hotel match filter: `hotel['destination'] == destination_lower`. -/
def matchHotel (req : HotelSearchRequest) (h : HotelRecord) : Bool :=
  h.destination == pyLower req.destination

/-- The synthesized id of the hotel match at 0-based position `i`:
`"HT" + destination.upper()[:3] + checkIn.replace('-','') + f"{i+1:02d}"`. -/
def hotelSearchId (req : HotelSearchRequest) (i : Nat) : String :=
  "HT" ++ pyTake (pyUpper req.destination) 3 ++ removeDashes req.checkIn ++ pad2 (i + 1)

/-- Result synthesized for the hotel match at 0-based position `i`. -/
def hotelResult (req : HotelSearchRequest) (i : Nat) (h : HotelRecord) : HotelSearch :=
  { searchId := hotelSearchId req i
    checkIn := req.checkIn
    checkOut := req.checkOut
    destination := req.destination
    hotelName := h.hotelName
    ratePerNight := h.ratePerNight }

/-- Embedding of the `search_hotel` endpoint: filter by normalized
destination, enumerate the matches to build results, choose the status by
emptiness. -/
def search_hotel (hotels : List HotelRecord) (req : HotelSearchRequest) :
    HotelSearchResponse :=
  let destinationHotels := hotels.filter (matchHotel req)
  let allResults :=
    destinationHotels.enum.foldl (fun acc p => acc ++ [hotelResult req p.1 p.2]) []
  if allResults.isEmpty then { status := "no_hotels_found", results := [] }
  else { status := "success", results := allResults }

/-! ### Concrete fixtures used by witnesses and counterexamples -/

/-- Hotel table with one good and one rate-unparseable retained row. -/
def exHotelTable : List HotelRow :=
  [⟨some "a", some "H1", some "100"⟩, ⟨some "a", some "H2", some "abc"⟩]

/-- Hotel table exercising destination carry-forward, with blank rate
cells: its rate column is read as all-`NaN` float, so the load fails. -/
def exCarryTable : List HotelRow :=
  [⟨some "A", some "H1", none⟩, ⟨none, some "H2", none⟩]

/-- The same carry-forward table with comma-containing rates, which keep
the rate column string-typed so the load succeeds. -/
def exCarryTableRates : List HotelRow :=
  [⟨some "A", some "H1", some "12,500"⟩, ⟨none, some "H2", some "8,000"⟩]

/-- Two loaded hotel records in Goa. -/
def exHotels : List HotelRecord :=
  [⟨"goa", "H1", none⟩, ⟨"goa", "H2", none⟩]

/-- A hotel search request for Goa. -/
def exHotelReq : HotelSearchRequest :=
  ⟨"2024-05-01", "2024-05-05", "goa"⟩

/-- A loaded flight record from Mumbai to Delhi. -/
def exFlight : FlightRecord :=
  ⟨"IndiGo", some 1000, "mumbai", "delhi", "09:00", "6E1"⟩

/-- A flight search request from Delhi to Mumbai (mixed casing). -/
def exFlightReq : FlightSearchRequest :=
  ⟨"2024-05-01", "2024-05-10", 2, "Mumbai", "Delhi"⟩

/-- The same request with fully lowercased cities. -/
def exFlightReqLower : FlightSearchRequest :=
  ⟨"2024-05-01", "2024-05-10", 2, "mumbai", "delhi"⟩

/-- The same request with zero travelers. -/
def exZeroReq : FlightSearchRequest :=
  ⟨"2024-05-01", "2024-05-10", 0, "Mumbai", "Delhi"⟩

/-- A flight whose two endpoint cities normalize to the same string. -/
def exRoundFlight : FlightRecord :=
  ⟨"GoAir", some 900, "goa", "goa", "08:00", "G8"⟩

/-- A request whose origin and destination normalize to the same string. -/
def exRoundReq : FlightSearchRequest :=
  ⟨"2024-06-01", "2024-06-05", 1, "Goa", "goa"⟩

/-- A raw flight row whose Departure City cell is missing; its fare
"1,000" contains a comma, keeping the fare column string-typed so the
cleaning step does not raise. -/
def exFlightRowNoDep : FlightRow :=
  ⟨some "Air One", some "1,000", none, some "Goa", some "10:00", some "AI1"⟩

/-! ### Helper lemmas: decimal digits and zero padding -/

/-- Decoding a digit character produced by `Nat.digitChar` recovers the
digit. -/
theorem digitVal_digitChar : ∀ n : Nat, n < 10 → digitVal (Nat.digitChar n) = n := by
  decide

/-- Folding the decimal decoder over the digits of `n` recovers `n`,
relative to any accumulator. -/
theorem toDecAux_foldl :
    ∀ (fuel n a : Nat), n < fuel →
      (toDecAux fuel n).foldl (fun b c => 10 * b + digitVal c) a =
        a * 10 ^ (toDecAux fuel n).length + n := by
  intro fuel
  induction fuel with
  | zero => intro n a h; omega
  | succ fuel ih =>
    intro n a h
    by_cases h10 : n < 10
    · simp only [toDecAux, if_pos h10, List.foldl_cons, List.foldl_nil, List.length_cons,
        List.length_nil, pow_one, digitVal_digitChar n h10]
      ring
    · have hlt : n / 10 < fuel := by omega
      have hmod : digitVal (Nat.digitChar (n % 10)) = n % 10 :=
        digitVal_digitChar _ (Nat.mod_lt _ (by omega))
      simp only [toDecAux, if_neg h10, List.foldl_append, List.foldl_cons, List.foldl_nil,
        List.length_append, List.length_cons, List.length_nil, ih (n / 10) a hlt, hmod]
      have hdm := Nat.div_add_mod n 10
      set L := (toDecAux fuel (n / 10)).length with hL
      calc 10 * (a * 10 ^ L + n / 10) + n % 10
          = a * 10 ^ (L + 1) + (10 * (n / 10) + n % 10) := by ring
        _ = a * 10 ^ (L + (0 + 1)) + n := by rw [hdm]

/-- The decimal decoder inverts the decimal printer. -/
theorem digitsVal_toDecChars (n : Nat) : digitsVal (toDecChars n) = n := by
  have h := toDecAux_foldl (n + 1) n 0 (by omega)
  simpa [digitsVal, toDecChars, digitVal] using h

/-- Leading zeros do not change the decoded value when starting from 0. -/
theorem foldl_decode_replicate_zero (k : Nat) :
    (List.replicate k '0').foldl (fun b c => 10 * b + digitVal c) 0 = 0 := by
  induction k with
  | zero => rfl
  | succ k ih => simpa [List.replicate_succ, digitVal] using ih

/-- The decoder also inverts the width-two zero-padded printer. -/
theorem digitsVal_pad2Chars (n : Nat) : digitsVal (pad2Chars n) = n := by
  unfold digitsVal pad2Chars
  rw [List.foldl_append, foldl_decode_replicate_zero]
  exact digitsVal_toDecChars n

/-- Width-two zero padding is injective. -/
theorem pad2_injective : Function.Injective pad2 := by
  intro a b h
  have hdata : pad2Chars a = pad2Chars b := congrArg String.data h
  have := congrArg digitsVal hdata
  rwa [digitsVal_pad2Chars, digitsVal_pad2Chars] at this

/-! ### Helper lemmas: parsing and dtype inference -/

/-- A decimal digit is neither a comma nor a double quote. -/
theorem digit_ne_comma_quote (c : Char) (h : c.isDigit = true) :
    c ≠ ',' ∧ c ≠ '\"' := by
  constructor
  · intro hc
    subst hc
    exact absurd h (by decide)
  · intro hc
    subst hc
    exact absurd h (by decide)

/-- A character list accepted by `parseUnsigned` contains neither commas
nor double quotes. -/
theorem parseUnsigned_chars (l : List Char)
    (h : (parseUnsigned l).isSome = true) :
    ∀ c ∈ l, c ≠ ',' ∧ c ≠ '\"' := by
  intro c hc
  have hl : l.takeWhile Char.isDigit ++ l.dropWhile Char.isDigit = l :=
    List.takeWhile_append_dropWhile Char.isDigit l
  simp only [parseUnsigned] at h
  split at h
  · next heq =>
    rw [← hl, heq, List.append_nil] at hc
    exact digit_ne_comma_quote c (List.mem_takeWhile_imp hc)
  · next frac heq =>
    split at h
    · next hguard =>
      have hfrac : frac.all Char.isDigit = true := (Bool.and_eq_true _ _).mp hguard |>.1
      rw [← hl, heq] at hc
      rcases List.mem_append.mp hc with hc1 | hc2
      · exact digit_ne_comma_quote c (List.mem_takeWhile_imp hc1)
      · rcases List.mem_cons.mp hc2 with rfl | hc3
        · exact ⟨by decide, by decide⟩
        · exact digit_ne_comma_quote c (List.all_eq_true.mp hfrac c hc3)
    · simp at h
  · simp at h

/-- A string accepted by `parseDec` contains neither commas nor double
quotes. -/
theorem parseDec_chars (s : String) (h : (parseDec s).isSome = true) :
    ∀ c ∈ s.data, c ≠ ',' ∧ c ≠ '\"' := by
  intro c hc
  unfold parseDec at h
  split at h
  · next rest heq =>
    rw [Option.isSome_map'] at h
    rw [heq] at hc
    rcases List.mem_cons.mp hc with rfl | hc2
    · exact ⟨by decide, by decide⟩
    · exact parseUnsigned_chars rest h c hc2
  · next hne =>
    exact parseUnsigned_chars s.data h c hc

/-- Cleaning strips nothing from a string avoiding commas and quotes. -/
theorem cleanNumStr_eq_self (s : String)
    (h : ∀ c ∈ s.data, c ≠ ',' ∧ c ≠ '\"') : cleanNumStr s = s := by
  show String.mk (s.data.filter _) = s
  rw [List.filter_eq_self.mpr]
  intro a ha
  rcases h a ha with ⟨h1, h2⟩
  simp [List.elem_eq_mem, h1, h2]

/-- A cell that does not parse even after cleaning is not a plain
numeral, so it forces its column to keep object (string) dtype. -/
theorem cellNumeric_false_of_bad_clean (s : String)
    (hbad : (parseDec (cleanNumStr s)).isSome = false) :
    cellNumeric (some s) = false := by
  show (parseDec s).isSome = false
  cases hps : (parseDec s).isSome with
  | false => rfl
  | true =>
    exfalso
    have hid := cleanNumStr_eq_self s (parseDec_chars s hps)
    rw [hid, hps] at hbad
    exact absurd hbad (by decide)

/-! ### Helper lemmas: the query engine -/

/-- Appending one synthesized element per iteration is a `map`. -/
theorem foldl_append_eq {α β : Type _} (g : α → β) :
    ∀ (l : List α) (acc : List β),
      l.foldl (fun b x => b ++ [g x]) acc = acc ++ l.map g := by
  intro l
  induction l with
  | nil => intro acc; simp
  | cons x xs ih => intro acc; simp [ih, List.append_assoc]

/-- The flight response's result list is exactly the Pass A matches in
source order followed by the Pass B matches in source order. -/
theorem search_flight_results (flights : List FlightRecord) (req : FlightSearchRequest) :
    (search_flight flights req).results =
      (flights.filter (matchOutbound req)).map (outboundResult req)
        ++ (flights.filter (matchReturn req)).map (returnResult req) := by
  unfold search_flight
  simp only [foldl_append_eq, List.nil_append]
  split
  · next hempty => exact (List.isEmpty_iff.mp hempty).symm
  · rfl

/-- Status of the flight response as a function of result emptiness. -/
theorem search_flight_status_iff (flights : List FlightRecord) (req : FlightSearchRequest) :
    ((search_flight flights req).status = "success"
      ↔ (search_flight flights req).results ≠ [])
    ∧ ((search_flight flights req).status = "no_flights_found"
      ↔ (search_flight flights req).results = []) := by
  unfold search_flight
  simp only [foldl_append_eq, List.nil_append]
  split
  · next hempty => simp_all [List.isEmpty_iff]
  · next hempty => simp_all [List.isEmpty_iff]

/-- The hotel response's result list enumerates the matches in source
order. -/
theorem search_hotel_results (hotels : List HotelRecord) (req : HotelSearchRequest) :
    (search_hotel hotels req).results =
      (hotels.filter (matchHotel req)).enum.map (fun p => hotelResult req p.1 p.2) := by
  unfold search_hotel
  simp only [foldl_append_eq, List.nil_append]
  split
  · next hempty => exact (List.isEmpty_iff.mp hempty).symm
  · rfl

/-- Status of the hotel response as a function of result emptiness. -/
theorem search_hotel_status_iff (hotels : List HotelRecord) (req : HotelSearchRequest) :
    ((search_hotel hotels req).status = "success"
      ↔ (search_hotel hotels req).results ≠ [])
    ∧ ((search_hotel hotels req).status = "no_hotels_found"
      ↔ (search_hotel hotels req).results = []) := by
  unfold search_hotel
  simp only [foldl_append_eq, List.nil_append]
  split
  · next hempty => simp_all [List.isEmpty_iff]
  · next hempty => simp_all [List.isEmpty_iff]

/-- For a fixed request, the synthesized hotel search ids are injective in
the match position. -/
theorem hotelSearchId_injective (req : HotelSearchRequest) :
    Function.Injective (hotelSearchId req) := by
  intro i j h
  have hdata := congrArg String.data h
  simp only [hotelSearchId, String.data_append] at hdata
  have hpad : (pad2 (i + 1)).data = (pad2 (j + 1)).data :=
    List.append_cancel_left hdata
  have hv : digitsVal (pad2Chars (i + 1)) = digitsVal (pad2Chars (j + 1)) :=
    congrArg digitsVal hpad
  rw [digitsVal_pad2Chars, digitsVal_pad2Chars] at hv
  omega

/-- All search ids in one hotel response are pairwise distinct. -/
theorem search_hotel_ids_nodup (hotels : List HotelRecord) (req : HotelSearchRequest) :
    (((search_hotel hotels req).results).map (fun r => r.searchId)).Nodup := by
  rw [search_hotel_results, List.map_map]
  have hcomp :
      ((fun r : HotelSearch => r.searchId)
          ∘ (fun p : Nat × HotelRecord => hotelResult req p.1 p.2))
        = (fun i : Nat => hotelSearchId req i) ∘ Prod.fst := rfl
  rw [hcomp, ← List.map_map]
  exact List.Nodup.map (hotelSearchId_injective req) (List.nodup_enum_map_fst _)

/-! ### Helper lemmas: the hotel loader -/

/-- A row with a missing destination receives, before any other
processing, the destination of the nearest preceding row that has one. -/
theorem ffillAux_getElem?_of_none :
    ∀ (t : List HotelRow) (c : Option String) (i : Nat) (r : HotelRow),
      t[i]? = some r → r.dest = none →
      (ffillAux c t)[i]? = some { r with dest := lastDest c (t.take i) } := by
  intro t
  induction t with
  | nil => intro c i r h _; simp at h
  | cons x xs ih =>
    intro c i r h hd
    cases i with
    | zero =>
      simp only [List.getElem?_cons_zero, Option.some.injEq] at h
      subst h
      simp [ffillAux, hd, lastDest]
    | succ i =>
      rw [List.getElem?_cons_succ] at h
      cases hx : x.dest with
      | some d =>
        have step := ih (some d) i r h hd
        simpa [ffillAux, hx, lastDest] using step
      | none =>
        have step := ih c i r h hd
        simpa [ffillAux, hx, lastDest] using step

/-- The forward fill distributes over append, updating the carry. -/
theorem ffillAux_append (l1 : List HotelRow) :
    ∀ (c : Option String) (l2 : List HotelRow),
      ffillAux c (l1 ++ l2) = ffillAux c l1 ++ ffillAux (lastDest c l1) l2 := by
  induction l1 with
  | nil => intro c l2; rfl
  | cons x xs ih =>
    intro c l2
    cases hx : x.dest with
    | some d => simp [ffillAux, hx, lastDest, ih]
    | none => simp [ffillAux, hx, lastDest, ih]

/-- Unfolded form of the hotel loader. -/
theorem load_hotels_data_eq (t : List HotelRow) :
    load_hotels_data t =
      if (t.map (fun r => r.dest)).all cellNumeric
          || (t.map (fun r => r.hotelName)).all cellNumeric
          || (t.map (fun r => r.rate)).all cellNumeric then []
      else if ((ffillDest t).filter nameKept).all rateOk = true
        then ((ffillDest t).filter nameKept).filterMap buildHotel else [] := rfl

/-- One retained row whose rate cell does not parse empties the whole
hotel load. -/
theorem load_hotels_bad_rate (t : List HotelRow) (row : HotelRow)
    (hmem : row ∈ (ffillDest t).filter nameKept) (hbad : rateOk row = false) :
    load_hotels_data t = [] := by
  rw [load_hotels_data_eq]
  split
  · rfl
  · have hall : ((ffillDest t).filter nameKept).all rateOk = false :=
      List.all_eq_false.mpr ⟨row, hmem, by simp [hbad]⟩
    rw [hall]
    simp

/-- Every record the hotel loader emits has a non-empty hotel name. -/
theorem load_hotels_hotelName_ne (t : List HotelRow) (hr : HotelRecord)
    (hmem : hr ∈ load_hotels_data t) : hr.hotelName ≠ "" := by
  rw [load_hotels_data_eq] at hmem
  split at hmem
  · simp at hmem
  · split at hmem
    · obtain ⟨row, hrowmem, hbuild⟩ := List.mem_filterMap.mp hmem
      have hkept : nameKept row = true := (List.mem_filter.mp hrowmem).2
      cases hd : row.dest with
      | none => simp [buildHotel, hd] at hbuild
      | some d =>
        cases hn : row.hotelName with
        | none => simp [buildHotel, hd, hn] at hbuild
        | some n =>
          simp only [buildHotel, hd, hn, Option.some.injEq] at hbuild
          have hne : pyStrip n ≠ "" := by
            have := hkept
            simp only [nameKept, hn, bne_iff_ne, ne_eq] at this
            exact this
          rw [← hbuild]
          simpa using hne
    · simp at hmem

/-! ### Helper lemmas: the flight loader and prices -/

/-- When the fare column keeps object dtype and every fare cell parses,
the flight loader maps every row to one record. -/
theorem load_flights_data_of_faresOk (t : List FlightRow)
    (hobj : (t.map (fun r => r.fare)).all cellNumeric = false)
    (h : ∀ r ∈ t, fareOk r = true) : load_flights_data t = t.map buildFlight := by
  unfold load_flights_data
  rw [hobj]
  have hall : t.all fareOk = true := List.all_eq_true.mpr h
  simp [hall]

/-- With non-positive travelers, a non-negative fare yields a
non-positive total price. -/
theorem priceFor_nonpos (req : FlightSearchRequest) (f : FlightRecord)
    (ht : req.travelers ≤ 0) (q : ℚ) (hq : f.fare = some q) (hq0 : 0 ≤ q)
    (p : ℚ) (hp : priceFor req f = some p) : p ≤ 0 := by
  rw [priceFor, hq] at hp
  simp only [Option.map_some', Option.some.injEq] at hp
  have ht' : (req.travelers : ℚ) ≤ 0 := by exact_mod_cast ht
  rw [← hp]
  exact mul_nonpos_of_nonneg_of_nonpos hq0 ht'

/-- The search id of the hotel result at position `i`. -/
theorem search_hotel_results_getElem (hotels : List HotelRecord) (req : HotelSearchRequest)
    (i : Nat) (h : i < (search_hotel hotels req).results.length) :
    ((search_hotel hotels req).results.get ⟨i, h⟩).searchId = hotelSearchId req i := by
  have hres := search_hotel_results hotels req
  rw [List.get_of_eq hres]
  simp [List.get_eq_getElem, List.enum_eq_enumFrom, List.getElem_enumFrom, hotelResult]

/-- Uppercasing commutes with taking a character prefix. -/
theorem pyUpper_pyTake (s : String) (n : Nat) :
    pyUpper (pyTake s n) = pyTake (pyUpper s) n := by
  simp [pyUpper, pyTake, List.map_take]

/-! ### Claims -/

/-- C1 counterexample: in a table whose two retained rows are H1 (rate
"100") and H2 (unparseable rate "abc"), the load does not keep the H1
record — it returns the empty collection, contradicting the claim that
only the affected row is dropped and the collection stays non-empty. -/
theorem c1_counterexample :
    load_hotels_data exHotelTable = []
    ∧ ¬ ∃ hr ∈ load_hotels_data exHotelTable, hr.hotelName = "H1" := by
  constructor
  · decide
  · decide

/-- C1 (amended): a single retained row whose cleaned Rate Per Night does
not parse as a decimal makes the whole hotel load fail: the loader
returns the empty collection, dropping every other retained row as
well. -/
theorem c1_bad_rate_empties_hotel_load (t : List HotelRow) (row : HotelRow)
    (hmem : row ∈ (ffillDest t).filter nameKept) (hbad : rateOk row = false) :
    load_hotels_data t = [] :=
  load_hotels_bad_rate t row hmem hbad

/-- Witness for C1 at the concrete two-row table. -/
theorem c1_witness :
    (⟨some "a", some "H2", some "abc"⟩ : HotelRow) ∈ (ffillDest exHotelTable).filter nameKept
    ∧ rateOk ⟨some "a", some "H2", some "abc"⟩ = false
    ∧ load_hotels_data exHotelTable = [] :=
  ⟨by decide, by decide,
    c1_bad_rate_empties_hotel_load exHotelTable ⟨some "a", some "H2", some "abc"⟩
      (by decide) (by decide)⟩

/-- C2: every flight record matching the return pass (departure city is
the lowercased request destination, arrival city the lowercased request
origin) yields a result whose search id is "FL", the flight number, and
the dash-stripped return date; whose price is fare times travelers; whose
echoed origin and destination are swapped; and whose route is
"destination to origin". -/
theorem c2_return_leg_fields (flights : List FlightRecord) (req : FlightSearchRequest)
    (f : FlightRecord) (hmem : f ∈ flights)
    (hdep : f.departureCity = pyLower req.destination)
    (harr : f.arrivalCity = pyLower req.origin) :
    returnResult req f ∈ (search_flight flights req).results
    ∧ (returnResult req f).searchId = "FL" ++ f.flightNumber ++ removeDashes req.returnDate
    ∧ (returnResult req f).price = f.fare.map (fun q => q * (req.travelers : ℚ))
    ∧ (returnResult req f).origin = req.destination
    ∧ (returnResult req f).destination = req.origin
    ∧ (returnResult req f).route = req.destination ++ " to " ++ req.origin := by
  refine ⟨?_, rfl, rfl, rfl, rfl, rfl⟩
  rw [search_flight_results]
  apply List.mem_append_right
  apply List.mem_map_of_mem
  rw [List.mem_filter]
  exact ⟨hmem, by simp [matchReturn, hdep, harr]⟩

/-- Witness for C2 at a concrete Mumbai-to-Delhi record and a
Delhi-to-Mumbai request. -/
theorem c2_witness :
    returnResult exFlightReq exFlight ∈ (search_flight [exFlight] exFlightReq).results
    ∧ (returnResult exFlightReq exFlight).searchId =
        "FL" ++ exFlight.flightNumber ++ removeDashes exFlightReq.returnDate
    ∧ (returnResult exFlightReq exFlight).price =
        exFlight.fare.map (fun q => q * (exFlightReq.travelers : ℚ))
    ∧ (returnResult exFlightReq exFlight).origin = exFlightReq.destination
    ∧ (returnResult exFlightReq exFlight).destination = exFlightReq.origin
    ∧ (returnResult exFlightReq exFlight).route =
        exFlightReq.destination ++ " to " ++ exFlightReq.origin :=
  c2_return_leg_fields [exFlight] exFlightReq exFlight (by decide) (by decide) (by decide)

/-- C3: matching is case-insensitive — requests whose origins and
destinations agree after lowercasing select the same records in both
passes — while every result echoes the request's dates, travelers, and
either the unchanged or the swapped origin/destination in the caller's
original casing. -/
theorem c3_case_insensitive_matching (flights : List FlightRecord) :
    (∀ req1 req2 : FlightSearchRequest,
        pyLower req1.origin = pyLower req2.origin →
        pyLower req1.destination = pyLower req2.destination →
        flights.filter (matchOutbound req1) = flights.filter (matchOutbound req2)
        ∧ flights.filter (matchReturn req1) = flights.filter (matchReturn req2))
    ∧ (∀ (req : FlightSearchRequest) (r : FlightSearch),
        r ∈ (search_flight flights req).results →
        r.departureDate = req.departureDate ∧ r.returnDate = req.returnDate
        ∧ r.travelers = req.travelers
        ∧ ((r.origin = req.origin ∧ r.destination = req.destination)
          ∨ (r.origin = req.destination ∧ r.destination = req.origin))) := by
  constructor
  · intro req1 req2 ho hd
    constructor
    · exact List.filter_congr (fun f _ => by simp only [matchOutbound, ho, hd])
    · exact List.filter_congr (fun f _ => by simp only [matchReturn, ho, hd])
  · intro req r hmem
    rw [search_flight_results] at hmem
    rcases List.mem_append.mp hmem with hm | hm
    · obtain ⟨f, hf, rfl⟩ := List.mem_map.mp hm
      exact ⟨rfl, rfl, rfl, Or.inl ⟨rfl, rfl⟩⟩
    · obtain ⟨f, hf, rfl⟩ := List.mem_map.mp hm
      exact ⟨rfl, rfl, rfl, Or.inr ⟨rfl, rfl⟩⟩

/-- Witness for C3: a mixed-case and a lowercase request select the same
records. -/
theorem c3_witness :
    [exFlight].filter (matchOutbound exFlightReq)
      = [exFlight].filter (matchOutbound exFlightReqLower)
    ∧ [exFlight].filter (matchReturn exFlightReq)
      = [exFlight].filter (matchReturn exFlightReqLower) :=
  (c3_case_insensitive_matching [exFlight]).1 exFlightReq exFlightReqLower
    (by decide) (by decide)

/-- C4: both endpoints return "success" exactly when the result list is
non-empty and their no-match status exactly when it is empty, the empty
list occurring exactly when no record matches; the search functions are
total, so absence of matches never raises an error. -/
theorem c4_status_never_error (flights : List FlightRecord) (req : FlightSearchRequest)
    (hotels : List HotelRecord) (hreq : HotelSearchRequest) :
    (((search_flight flights req).status = "success"
        ↔ (search_flight flights req).results ≠ [])
      ∧ ((search_flight flights req).status = "no_flights_found"
        ↔ (search_flight flights req).results = [])
      ∧ ((search_flight flights req).results = []
        ↔ ∀ f ∈ flights, matchOutbound req f = false ∧ matchReturn req f = false))
    ∧ (((search_hotel hotels hreq).status = "success"
        ↔ (search_hotel hotels hreq).results ≠ [])
      ∧ ((search_hotel hotels hreq).status = "no_hotels_found"
        ↔ (search_hotel hotels hreq).results = [])
      ∧ ((search_hotel hotels hreq).results = []
        ↔ ∀ h ∈ hotels, matchHotel hreq h = false)) := by
  refine ⟨⟨(search_flight_status_iff flights req).1, (search_flight_status_iff flights req).2, ?_⟩,
    ⟨(search_hotel_status_iff hotels hreq).1, (search_hotel_status_iff hotels hreq).2, ?_⟩⟩
  · rw [search_flight_results]
    simp only [List.append_eq_nil, List.map_eq_nil_iff, List.filter_eq_nil_iff,
      Bool.not_eq_true]
    constructor
    · rintro ⟨h1, h2⟩ f hf
      exact ⟨h1 f hf, h2 f hf⟩
    · intro hh
      exact ⟨fun f hf => (hh f hf).1, fun f hf => (hh f hf).2⟩
  · rw [search_hotel_results]
    simp only [List.map_eq_nil_iff, List.enum_eq_enumFrom, List.enumFrom_eq_nil,
      List.filter_eq_nil_iff, Bool.not_eq_true]

/-- Witness for C4 at concrete data. -/
theorem c4_witness :
    (((search_flight [exFlight] exFlightReq).status = "success"
        ↔ (search_flight [exFlight] exFlightReq).results ≠ [])
      ∧ ((search_flight [exFlight] exFlightReq).status = "no_flights_found"
        ↔ (search_flight [exFlight] exFlightReq).results = [])
      ∧ ((search_flight [exFlight] exFlightReq).results = []
        ↔ ∀ f ∈ [exFlight], matchOutbound exFlightReq f = false
            ∧ matchReturn exFlightReq f = false))
    ∧ (((search_hotel exHotels exHotelReq).status = "success"
        ↔ (search_hotel exHotels exHotelReq).results ≠ [])
      ∧ ((search_hotel exHotels exHotelReq).status = "no_hotels_found"
        ↔ (search_hotel exHotels exHotelReq).results = [])
      ∧ ((search_hotel exHotels exHotelReq).results = []
        ↔ ∀ h ∈ exHotels, matchHotel exHotelReq h = false)) :=
  c4_status_never_error [exFlight] exFlightReq exHotels exHotelReq

/-- C5 counterexample: the claim's two-row table, taken literally with
blank Rate Per Night cells, does not load to two records — the rate
column is read as all-NaN float, the string cleaning raises, and the load
returns the empty collection. -/
theorem c5_counterexample :
    load_hotels_data exCarryTable = []
    ∧ ¬ ∃ hr ∈ load_hotels_data exCarryTable, hr.destination = "a" := by
  constructor
  · decide
  · decide

/-- C5 (amended): a row with a missing Destination cell receives, before
any other processing, the destination of the nearest preceding row that
has one; the two-row carry-forward table, realized with string-typed
rates ("12,500" and "8,000") so that the rate column keeps object dtype,
loads to exactly two records, both with destination "a". -/
theorem c5_carry_forward :
    (∀ (t : List HotelRow) (i : Nat) (r : HotelRow),
        t[i]? = some r → r.dest = none →
        (ffillDest t)[i]? = some { r with dest := lastDest none (t.take i) })
    ∧ load_hotels_data exCarryTableRates =
        [⟨"a", "H1", some 12500⟩, ⟨"a", "H2", some 8000⟩] := by
  constructor
  · intro t i r h hd
    exact ffillAux_getElem?_of_none t none i r h hd
  · decide

/-- Witness for C5: the second row of the carry-forward table inherits
destination "A" from the first. -/
theorem c5_witness :
    (ffillDest exCarryTable)[1]? = some (⟨some "A", some "H2", none⟩ : HotelRow) :=
  c5_carry_forward.1 exCarryTable 1 ⟨none, some "H2", none⟩ (by decide) rfl

/-- C6: the i-th hotel match (1-based) receives the id "HT", the first
three characters of the request destination uppercased, the dash-stripped
check-in date, and the position zero-padded to two digits; the Goa
example produces "HTGOA2024050101" and "HTGOA2024050102"; and all ids in
one response are pairwise distinct. -/
theorem c6_hotel_search_ids :
    (∀ (hotels : List HotelRecord) (req : HotelSearchRequest) (i : Nat)
        (h : i < (search_hotel hotels req).results.length),
        ((search_hotel hotels req).results.get ⟨i, h⟩).searchId =
          "HT" ++ pyUpper (pyTake req.destination 3) ++ removeDashes req.checkIn
            ++ pad2 (i + 1))
    ∧ (search_hotel exHotels exHotelReq).results.map (fun r => r.searchId) =
        ["HTGOA2024050101", "HTGOA2024050102"]
    ∧ (∀ (hotels : List HotelRecord) (req : HotelSearchRequest),
        (((search_hotel hotels req).results).map (fun r => r.searchId)).Nodup) := by
  refine ⟨?_, by decide, search_hotel_ids_nodup⟩
  intro hotels req i h
  rw [search_hotel_results_getElem hotels req i h, hotelSearchId, pyUpper_pyTake]

/-- Witness for C6: the first Goa match carries the expected id. -/
theorem c6_witness :
    0 < (search_hotel exHotels exHotelReq).results.length
    ∧ ((search_hotel exHotels exHotelReq).results.get ⟨0, by decide⟩).searchId =
        "HT" ++ pyUpper (pyTake exHotelReq.destination 3)
          ++ removeDashes exHotelReq.checkIn ++ pad2 1 :=
  ⟨by decide, c6_hotel_search_ids.1 exHotels exHotelReq 0 (by decide)⟩

/-- C7: in a table whose Destination and Hotel Name columns are kept as
strings (each has some non-numeral cell), an unparseable Rate Per Night
value sitting in a row that is discarded for a missing-or-empty hotel
name causes no load failure: provided the retained rows' rates parse,
the load still succeeds and emits exactly the retained rows' records —
the discarded row's bad rate is never even checked (it also keeps the
rate column object-typed, so the cleaning step cannot raise) — and no
emitted record ever has an empty hotel name, regardless of the discarded
row's rate value. -/
theorem c7_dropped_row_rate_irrelevant (pre post : List HotelRow) (r : HotelRow)
    (s : String)
    (hdest : ((pre ++ r :: post).map (fun x => x.dest)).all cellNumeric = false)
    (hname : ((pre ++ r :: post).map (fun x => x.hotelName)).all cellNumeric = false)
    (hrate : r.rate = some s)
    (hbad : (parseDec (cleanNumStr s)).isSome = false)
    (_hk : nameKept r = false)
    (hgood : ((ffillDest (pre ++ r :: post)).filter nameKept).all rateOk = true) :
    load_hotels_data (pre ++ r :: post) =
      ((ffillDest (pre ++ r :: post)).filter nameKept).filterMap buildHotel
    ∧ ∀ (t : List HotelRow) (hr : HotelRecord),
        hr ∈ load_hotels_data t → hr.hotelName ≠ "" := by
  refine ⟨?_, load_hotels_hotelName_ne⟩
  rw [load_hotels_data_eq]
  have hratecol : ((pre ++ r :: post).map (fun x => x.rate)).all cellNumeric = false := by
    rw [List.all_eq_false]
    refine ⟨r.rate, List.mem_map_of_mem _ (by simp), ?_⟩
    rw [hrate]
    simp [cellNumeric_false_of_bad_clean s hbad]
  rw [hdest, hname, hratecol]
  simp [hgood]

/-- Witness for C7: the H1 record survives alongside a discarded nameless
row whose rate "abc" cannot be parsed. -/
theorem c7_witness :
    load_hotels_data [⟨some "a", some "H1", some "100"⟩, ⟨some "a", some "", some "abc"⟩] =
      ((ffillDest [⟨some "a", some "H1", some "100"⟩,
          ⟨some "a", some "", some "abc"⟩]).filter nameKept).filterMap buildHotel :=
  (c7_dropped_row_rate_irrelevant [⟨some "a", some "H1", some "100"⟩] []
    ⟨some "a", some "", some "abc"⟩ "abc" (by decide) (by decide) rfl (by decide)
    (by decide) (by decide)).1

/-- C8: the result list is exactly the Pass A matches in source order
followed by the Pass B matches in source order, with no deduplication: a
record matching both passes contributes one entry to each pass and both
entries are counted. -/
theorem c8_two_pass_ordering (flights : List FlightRecord) (req : FlightSearchRequest) :
    ((search_flight flights req).results =
      (flights.filter (matchOutbound req)).map (outboundResult req)
        ++ (flights.filter (matchReturn req)).map (returnResult req))
    ∧ ((search_flight flights req).results.length =
        (flights.filter (matchOutbound req)).length
          + (flights.filter (matchReturn req)).length)
    ∧ (∀ f ∈ flights, matchOutbound req f = true → matchReturn req f = true →
        outboundResult req f ∈ (search_flight flights req).results
        ∧ returnResult req f ∈ (search_flight flights req).results) := by
  refine ⟨search_flight_results flights req, ?_, ?_⟩
  · rw [search_flight_results]
    simp
  · intro f hf hA hB
    rw [search_flight_results]
    exact ⟨List.mem_append_left _ (List.mem_map_of_mem _ (List.mem_filter.mpr ⟨hf, hA⟩)),
      List.mem_append_right _ (List.mem_map_of_mem _ (List.mem_filter.mpr ⟨hf, hB⟩))⟩

/-- Witness for C8: a Goa-to-Goa flight matches both passes of a
Goa-to-Goa request and appears through both result builders. -/
theorem c8_witness :
    outboundResult exRoundReq exRoundFlight ∈ (search_flight [exRoundFlight] exRoundReq).results
    ∧ returnResult exRoundReq exRoundFlight ∈ (search_flight [exRoundFlight] exRoundReq).results :=
  (c8_two_pass_ordering [exRoundFlight] exRoundReq).2.2 exRoundFlight
    (by decide) (by decide) (by decide)

/-- C9 counterexample: a flight row whose Departure City cell is missing
does not surface a parse or validation failure — the loader still
produces a record for it, with the placeholder string "nan" as the
departure city. -/
theorem c9_counterexample :
    load_flights_data [exFlightRowNoDep] =
      [⟨"Air One", some 1000, "nan", "goa", "10:00", "AI1"⟩]
    ∧ (load_flights_data [exFlightRowNoDep]).length = 1 := by
  constructor
  · decide
  · decide

/-- C9 (amended): when the fare column keeps object dtype (some fare
cell is not a plain numeral, so the cleaning step does not raise) and
every fare cell parses after cleaning, the flight loader never skips a
row — every source row yields exactly one record — but a missing required
string field does not surface a failure: the record carries the
placeholder string "nan" for that field. The `colKeepsStrings`
hypotheses scope the statement to tables whose other columns `read_csv`
keeps as strings (or entirely NaN), exactly the tables on which this
embedding's `str()` model is the identity on present cells; a numeral-
only fare column instead makes the whole load fail and return the empty
collection. -/
theorem c9_no_silent_skip (t : List FlightRow)
    (hobj : (t.map (fun r => r.fare)).all cellNumeric = false)
    (_hname : colKeepsStrings (t.map (fun r => r.flightName)) = true)
    (_hdep : colKeepsStrings (t.map (fun r => r.departureCity)) = true)
    (_harr : colKeepsStrings (t.map (fun r => r.arrivalCity)) = true)
    (_htime : colKeepsStrings (t.map (fun r => r.departureTime)) = true)
    (_hnum : colKeepsStrings (t.map (fun r => r.flightNumber)) = true)
    (hfares : ∀ r ∈ t, fareOk r = true) :
    load_flights_data t = t.map buildFlight
    ∧ (load_flights_data t).length = t.length
    ∧ ∀ r ∈ t, r.departureCity = none → (buildFlight r).departureCity = "nan" := by
  refine ⟨load_flights_data_of_faresOk t hobj hfares, ?_, ?_⟩
  · rw [load_flights_data_of_faresOk t hobj hfares, List.length_map]
  · intro r _ hnone
    show pyLower (pyStrip (strCell r.departureCity)) = "nan"
    rw [hnone]
    decide

/-- Witness for C9 at the row with a missing Departure City and a
comma-containing fare. -/
theorem c9_witness :
    load_flights_data [exFlightRowNoDep] = [exFlightRowNoDep].map buildFlight
    ∧ (load_flights_data [exFlightRowNoDep]).length = [exFlightRowNoDep].length
    ∧ ∀ r ∈ [exFlightRowNoDep], r.departureCity = none →
        (buildFlight r).departureCity = "nan" :=
  c9_no_silent_skip [exFlightRowNoDep] (by decide) (by decide) (by decide)
    (by decide) (by decide) (by decide) (by decide)

/-- C10: the query engine never enforces travelers > 0 — for a
non-positive travelers count it still returns both passes normally, with
status "success" exactly when matches exist, and each result's price is
the fare times the (non-positive) travelers count, hence non-positive for
a non-negative fare. -/
theorem c10_travelers_not_validated (flights : List FlightRecord)
    (req : FlightSearchRequest) (ht : req.travelers ≤ 0) :
    ((search_flight flights req).results =
      (flights.filter (matchOutbound req)).map (outboundResult req)
        ++ (flights.filter (matchReturn req)).map (returnResult req))
    ∧ ((search_flight flights req).status = "success"
        ↔ (search_flight flights req).results ≠ [])
    ∧ (∀ r ∈ (search_flight flights req).results, ∃ f, f ∈ flights
        ∧ r.price = f.fare.map (fun q => q * (req.travelers : ℚ))
        ∧ ∀ q : ℚ, f.fare = some q → 0 ≤ q →
            ∀ p : ℚ, r.price = some p → p ≤ 0) := by
  refine ⟨search_flight_results flights req, (search_flight_status_iff flights req).1, ?_⟩
  intro r hmem
  rw [search_flight_results] at hmem
  rcases List.mem_append.mp hmem with hm | hm
  · obtain ⟨f, hf, rfl⟩ := List.mem_map.mp hm
    exact ⟨f, (List.mem_filter.mp hf).1, rfl,
      fun q hq hq0 p hp => priceFor_nonpos req f ht q hq hq0 p hp⟩
  · obtain ⟨f, hf, rfl⟩ := List.mem_map.mp hm
    exact ⟨f, (List.mem_filter.mp hf).1, rfl,
      fun q hq hq0 p hp => priceFor_nonpos req f ht q hq hq0 p hp⟩

/-- Witness for C10 at a zero-travelers request. -/
theorem c10_witness :
    ((search_flight [exFlight] exZeroReq).results =
      ([exFlight].filter (matchOutbound exZeroReq)).map (outboundResult exZeroReq)
        ++ ([exFlight].filter (matchReturn exZeroReq)).map (returnResult exZeroReq))
    ∧ ((search_flight [exFlight] exZeroReq).status = "success"
        ↔ (search_flight [exFlight] exZeroReq).results ≠ [])
    ∧ (∀ r ∈ (search_flight [exFlight] exZeroReq).results, ∃ f, f ∈ [exFlight]
        ∧ r.price = f.fare.map (fun q => q * (exZeroReq.travelers : ℚ))
        ∧ ∀ q : ℚ, f.fare = some q → 0 ≤ q →
            ∀ p : ℚ, r.price = some p → p ≤ 0) :=
  c10_travelers_not_validated [exFlight] exZeroReq (by decide)

end Travel
